import Mathlib

/-!
Verification of the KindergartenAI two-stage media-generation pipeline.

The definitions below are a shallow embedding of the Python sources:
- `src/videogeneration/videogeneration.py` (job client: submit / poll / download),
- `src/soundgeneration/soundgeneration.py` and `src/soundgeneration/video_input.py`
  (sound job client and artifact fetcher),
- `src/example_usage.py` (CLI batch pipeline) and `src/server.py` (HTTP pipeline).

External HTTP traffic is modelled by explicit response values handed to the
functions; concurrency is modelled by an arbitrary completion order (a
permutation of the item indices), matching the source `as_completed` collection
loop followed by an index sort.
-/

set_option maxRecDepth 2000

namespace KindergartenAI

/-- Two-digit zero padding, modelling the Python 02d format
(used for the numbered video and sound output filenames). -/
def pad2 (n : Nat) : String :=
  if n < 10 then "0" ++ toString n else toString n

/-- The fixed system prompt of `example_usage.generate_video_for_image`
(line 34) and `server.process_single_image` (line 61). -/
def system_prompt : String :=
  "smooth animation, natural movement, facial reactions and actions only, NO Lip movement, high quality"

/-- Output path of the stage-1 worker: output_dir joined with the numbered
video filename (`example_usage.py` lines 28-29, `server.py` lines 50-51). -/
def video_output_path (output_dir : String) (index : Nat) : String :=
  output_dir ++ "/video_" ++ pad2 (index + 1) ++ ".mp4"

/-- Prompt combination of the stage-1 worker (`example_usage.py` lines 33-39):
the system prompt, with `", " ++ custom` appended when a custom prompt is given. -/
def positive_prompt_for (custom : Option String) : String :=
  match custom with
  | some c => system_prompt ++ ", " ++ c
  | none => system_prompt

/-! ### Poll loop model (`ImageToVideoGenerator.poll_result`, videogeneration.py 170-231) -/

/-- One element of the `data` array of a poll response body
(`result["data"][0]` in `poll_result`). `status` and `message` are read with
`dict.get`, hence optional; `videoURL` is the payload consumed downstream. -/
structure PollData where
  status : Option String
  message : Option String
  videoURL : Option String
deriving DecidableEq, Inhabited

/-- One element of the `errors` array of a poll response body.
`code` is read with `dict.get` (optional); `message` with `error["message"]`. -/
structure PollErr where
  code : Option String
  message : String
deriving DecidableEq, Inhabited

/-- A poll HTTP response: status code plus the decoded JSON body.
An absent `data` / `errors` key and an empty array behave identically under
the truthiness checks of the source, so both are the empty list. -/
structure PollResponse where
  status : Nat
  data : List PollData
  errors : List PollErr
deriving DecidableEq, Inhabited

/-- Outcome of one iteration of the poll loop body:
return the data payload, raise an exception with a message, or sleep
`secs` seconds and continue polling. -/
inductive PollStep where
  | ret (d : PollData)
  | raiseErr (msg : String)
  | wait (secs : Nat)
deriving DecidableEq

/-- The `errors` check of the poll loop (videogeneration.py lines 218-226):
a `taskNotFound` code is transient (sleep 10, continue); any other code raises
a polling-error exception carrying the envelope message; no errors means still
processing (sleep 10, continue). -/
def poll_step_errors (r : PollResponse) : PollStep :=
  match r.errors with
  | e :: _ =>
    if e.code = some "taskNotFound" then PollStep.wait 10
    else PollStep.raiseErr ("Polling error: " ++ e.message)
  | [] => PollStep.wait 10

/-- One full iteration of the poll loop body (videogeneration.py lines 196-229):
a non-200 HTTP status sleeps 5 seconds and continues; otherwise the `data`
array is checked first (terminal `success` returns the payload, terminal
`error` raises), then the `errors` array is classified by `poll_step_errors`. -/
def poll_step (r : PollResponse) : PollStep :=
  if r.status ≠ 200 then PollStep.wait 5
  else
    match r.data with
    | d :: _ =>
      if d.status = some "success" then PollStep.ret d
      else if d.status = some "error" then
        PollStep.raiseErr ("Generation failed: " ++ d.message.getD "Unknown error")
      else poll_step_errors r
    | [] => poll_step_errors r

/-- Terminal outcome of `poll_result`. -/
inductive PollOutcome where
  | success (d : PollData)
  | failure (msg : String)
  | timedOut
deriving DecidableEq, Inhabited

/-- The poll loop `while time.time() - start_time < timeout` (lines 187-231).
The trace lists, for each loop iteration, the elapsed time observed at the
top of the loop and the HTTP response the poll request would receive.
`none` means the trace was too short to decide the loop. The final
`raise Exception("Timeout ...")` is `PollOutcome.timedOut`. -/
def poll_result (timeout : Nat) : List (Nat × PollResponse) → Option PollOutcome
  | [] => none
  | (elapsed, r) :: rest =>
    if elapsed < timeout then
      match poll_step r with
      | PollStep.ret d => some (PollOutcome.success d)
      | PollStep.raiseErr m => some (PollOutcome.failure m)
      | PollStep.wait _ => poll_result timeout rest
    else some PollOutcome.timedOut

/-- Number of poll HTTP requests issued by `poll_result` on a trace:
a request is issued exactly when the loop guard `elapsed < timeout` passes. -/
def polls_issued (timeout : Nat) : List (Nat × PollResponse) → Nat
  | [] => 0
  | (elapsed, r) :: rest =>
    if elapsed < timeout then
      match poll_step r with
      | PollStep.wait _ => polls_issued timeout rest + 1
      | _ => 1
    else 0

/-- A poll response carrying only a `taskNotFound` error envelope. -/
def taskNotFoundResponse : PollResponse :=
  { status := 200, data := [], errors := [{ code := some "taskNotFound", message := "Task not found" }] }

/-- A successful poll response with a video URL payload. -/
def successResponse : PollResponse :=
  { status := 200
    data := [{ status := some "success", message := none, videoURL := some "https://vm.runware.ai/v.mp4" }]
    errors := [] }

/-! ### Artifact fetcher (`video_input.download_video`) and result downloads -/

/-- An HTTP download response: status code, the content-length header value
(0 when absent, as in the source default) and the body bytes. -/
structure DownloadResp where
  status : Nat
  content_length : Nat
  body : List Nat
deriving DecidableEq, Inhabited

/-- Message of the HTTPError produced by raise_for_status for a given code. -/
def http_error_message (status : Nat) : String :=
  toString status ++ " Error"

/-- The artifact fetcher `download_video` (video_input.py lines 21-59).
The argument is the outcome of the single `requests.get` call: a transport
failure (a RequestException message) or a response. `raise_for_status`
raises for status codes in the 4xx and 5xx ranges; both that HTTPError and
transport failures are re-raised as a download-failure exception. On success
the body bytes are written to the output path (chunked and whole-body writes
store the same bytes) and the path is returned. -/
def download_video (response : Except String DownloadResp) (output_path : String) :
    Except String (String × List Nat) :=
  match response with
  | Except.error e => Except.error ("Failed to download video: " ++ e)
  | Except.ok r =>
    if 400 ≤ r.status ∧ r.status < 600 then
      Except.error ("Failed to download video: " ++ http_error_message r.status)
    else
      Except.ok (output_path, r.body)

/-- The inline video download of `generate_video_from_image`
(videogeneration.py lines 300-309): when an output path is given, a status
200 response stores the file and records the local path; any other status
only prints a warning — no exception is raised and no local path is set.
Returns the result payload together with its local_path field. -/
def download_video_step (result : PollData) (output_path : Option String)
    (download_status : Nat) : PollData × Option String :=
  match output_path with
  | none => (result, none)
  | some p => if download_status = 200 then (result, some p) else (result, none)

/-- Loop body of `_download_results` (soundgeneration.py lines 208-226),
carrying the 1-based enumeration index: a 200 response saves the file and
collects its path; any other status prints a failure note and is skipped. -/
def download_results_go (idx : Nat) (statuses : List Nat) (output_dir : String)
    (file_tag : String) : List String :=
  match statuses with
  | [] => []
  | s :: rest =>
    if s = 200 then
      (output_dir ++ "/" ++ file_tag ++ "_" ++ toString idx ++ ".mp4") ::
        download_results_go (idx + 1) rest output_dir file_tag
    else download_results_go (idx + 1) rest output_dir file_tag

/-- `_download_results` (source name with a leading underscore): downloads
each output URL in turn; `statuses` is the HTTP status each `requests.get`
returns, enumerated from 1. -/
def download_results (statuses : List Nat) (output_dir : String) (file_tag : String) :
    List String :=
  download_results_go 1 statuses output_dir file_tag

/-! ### Job clients (`generate_video_from_image`, `generate_sound_for_video`) -/

/-- `generate_video_from_image` (videogeneration.py lines 234-314).
The key is resolved as the explicit parameter or else the environment
variable; if both are absent a ValueError is raised before anything else
happens (in particular before any network request — note the result does not
depend on the remaining arguments in that case). Otherwise: `submit_outcome`
is the outcome of `generator.generate_video` (a task UUID, or the message of
a submission exception), `poll_outcome` the outcome of
`generator.poll_result`, and the optional download is `download_video_step`.
Every exception inside the try block is wrapped with the
video-generation-failed text. -/
def generate_video_from_image (api_key env_key : Option String)
    (submit_outcome : Except String String) (poll_outcome : PollOutcome)
    (output_path : Option String) (download_status : Nat) :
    Except String (PollData × Option String) :=
  match api_key <|> env_key with
  | none => Except.error "API key required. Set RUNWARE_API_KEY environment variable or pass api_key parameter"
  | some _ =>
    match submit_outcome with
    | Except.error e => Except.error ("Video generation failed: " ++ e)
    | Except.ok _ =>
      match poll_outcome with
      | PollOutcome.success d => Except.ok (download_video_step d output_path download_status)
      | PollOutcome.failure m => Except.error ("Video generation failed: " ++ m)
      | PollOutcome.timedOut =>
        Except.error ("Video generation failed: Timeout waiting for video generation to complete")

/-- `generate_sound_for_video` (soundgeneration.py lines 21-105).
The key is resolved as the explicit parameter or else the environment
variable; if both are absent a ValueError is raised first. `body` is the
outcome of the try block (upload, SFX generation and result download),
whose exceptions are wrapped with the sound-generation-failed text. -/
def generate_sound_for_video (api_key env_key : Option String)
    (body : Except String (List String)) : Except String (List String) :=
  match api_key <|> env_key with
  | none => Except.error "API key required. Set MIRELO_API_KEY environment variable or pass api_key parameter"
  | some _ =>
    match body with
    | Except.ok paths => Except.ok paths
    | Except.error e => Except.error ("Sound generation failed: " ++ e)

/-- The stage-1 generation call as seen by the batch worker: the worker calls
`generate_video_from_image` with the image path, output path and prompt, and
reads the videoURL key of the result (a missing key raises a KeyError, which
the worker boundary catches like any other exception). -/
def gvfi_worker_gen (api_key env_key : Option String)
    (submit_outcome : Except String String) (poll_outcome : PollOutcome)
    (download_status : Nat) : String → String → String → Except String String :=
  fun _ out _ =>
    match generate_video_from_image api_key env_key submit_outcome poll_outcome
        (some out) download_status with
    | Except.error e => Except.error e
    | Except.ok (d, _) =>
      match d.videoURL with
      | some u => Except.ok u
      | none => Except.error "KeyError: videoURL"

/-! ### Stage workers (`generate_video_for_image`, `generate_sound_for_video_result`) -/

/-- Result dictionary of the stage-1 worker. The success variant populates
video_path and video_url; the failure variant populates error. This one
record shape covers both `example_usage.generate_video_for_image` and
`server.process_single_image` (whose result dictionaries differ only in
extra constant reporting fields). -/
structure VideoResult where
  index : Nat
  image_path : String
  video_path : Option String
  video_url : Option String
  success : Bool
  error : Option String
deriving DecidableEq, Inhabited

/-- The stage-1 worker `generate_video_for_image` (example_usage.py lines
25-64) and `process_single_image` (server.py lines 47-98): computes the
numbered output path and the combined prompt, invokes the generation call
`gen` on them, and converts its outcome into a result dictionary — every
exception is caught at this boundary and becomes a failure record carrying
the item index and the exception message. -/
def generate_video_for_image (gen : String → String → String → Except String String)
    (image_path : String) (index : Nat) (output_dir : String)
    (custom_prompt : Option String) : VideoResult :=
  let output_path := video_output_path output_dir index
  match gen image_path output_path (positive_prompt_for custom_prompt) with
  | Except.ok url =>
    { index := index, image_path := image_path, video_path := some output_path
      video_url := some url, success := true, error := none }
  | Except.error e =>
    { index := index, image_path := image_path, video_path := none
      video_url := none, success := false, error := some e }

/-- Result dictionary of the stage-2 worker. -/
structure SoundResult where
  index : Nat
  video_path : String
  sound_video_paths : Option (List String)
  success : Bool
  error : Option String
deriving DecidableEq, Inhabited

/-- Output filename tag of the stage-2 worker (source keyword output_prefix,
renamed here): the sound_video label followed by the 1-based padded index. -/
def sound_output_tag (index : Nat) : String :=
  "sound_video_" ++ pad2 (index + 1)

/-- The stage-2 worker `generate_sound_for_video_result` (example_usage.py
lines 67-99) and `process_single_sound` (server.py lines 100-133): invokes
the sound generation call `sg` on the local video path (no re-download) and
the numbered output tag, converting the outcome into a result dictionary —
every exception is caught at this boundary and becomes a failure record. -/
def generate_sound_for_video_result (sg : String → String → String → Except String (List String))
    (video_result : VideoResult) (output_dir : String) : SoundResult :=
  let i := video_result.index
  let vp := video_result.video_path.getD ""
  match sg vp output_dir (sound_output_tag i) with
  | Except.ok paths =>
    { index := i, video_path := vp, sound_video_paths := some paths
      success := true, error := none }
  | Except.error e =>
    { index := i, video_path := vp, sound_video_paths := none
      success := false, error := some e }

/-! ### Stage orchestrator: fan out, collect as completed, sort by index -/

/-- Key-ordering relation used for the Python sort with an index key. -/
def key_le {α : Type} (key : α → Nat) (a b : α) : Prop := key a ≤ key b

/-- Strict version of `key_le`, used to state that distinct-key sorted lists
are unique. -/
def key_lt {α : Type} (key : α → Nat) (a b : α) : Prop := key a < key b

instance keyLeDecidable {α : Type} (key : α → Nat) : DecidableRel (key_le key) :=
  fun a b => Nat.decLe (key a) (key b)

instance keyLeTotal {α : Type} (key : α → Nat) : IsTotal α (key_le key) :=
  ⟨fun a b => Nat.le_total (key a) (key b)⟩

instance keyLeTrans {α : Type} (key : α → Nat) : IsTrans α (key_le key) :=
  ⟨fun _ _ _ h1 h2 => Nat.le_trans h1 h2⟩

instance keyLtAntisymm {α : Type} (key : α → Nat) : IsAntisymm α (key_lt key) :=
  ⟨fun _ _ h1 h2 => absurd (Nat.lt_trans h1 h2) (Nat.lt_irrefl _)⟩

/-- The as_completed collection loop: results arrive in an arbitrary
completion order over the submitted futures and are appended as they
complete (example_usage.py lines 176-179, server.py lines 375-377). -/
def collect_results {α : Type} [Inhabited α] (tagged : List α) (order : List Nat) : List α :=
  order.map (fun k => tagged.getD k default)

/-- The Python list sort with an index key (example_usage.py line 182 and
line 222, server.py lines 380 and 405). -/
def sort_by_key {α : Type} (key : α → Nat) (l : List α) : List α :=
  List.insertionSort (key_le key) l

/-- Prompt list construction (example_usage.py lines 161-162, server.py
lines 364-365): pad the provided prompts with None up to the image count,
then truncate to the image count. -/
def image_prompts (prompts : List String) (n : Nat) : List (Option String) :=
  ((prompts.map some) ++ List.replicate (n - prompts.length) none).take n

/-- Stage-1 results in submission order: one worker invocation per input,
tagged with its enumeration index (the futures dictionary comprehension,
example_usage.py lines 171-174, server.py lines 370-373). -/
def phase1_tagged (gen : String → String → String → Except String String)
    (images : List String) (output_dir : String) (prompts : List (Option String)) :
    List VideoResult :=
  images.enum.map (fun p => generate_video_for_image gen p.2 p.1 output_dir (prompts.getD p.1 none))

/-- The full stage-1 orchestrator: submit all items, collect results in
completion order, then sort the collection by the original index. -/
def run_phase1 (gen : String → String → String → Except String String)
    (images : List String) (output_dir : String) (prompts : List (Option String))
    (order : List Nat) : List VideoResult :=
  sort_by_key VideoResult.index
    (collect_results (phase1_tagged gen images output_dir prompts) order)

/-- Stage-2 results in submission order over the given video results. -/
def phase2_tagged (sg : String → String → String → Except String (List String))
    (videos : List VideoResult) (output_dir : String) : List SoundResult :=
  videos.map (fun vr => generate_sound_for_video_result sg vr output_dir)

/-- The full stage-2 orchestrator: submit a sound job per video result,
collect in completion order, sort by the original index. -/
def run_phase2 (sg : String → String → String → Except String (List String))
    (videos : List VideoResult) (output_dir : String) (order : List Nat) :
    List SoundResult :=
  sort_by_key SoundResult.index
    (collect_results (phase2_tagged sg videos output_dir) order)

/-- Final report of a pipeline run: the stage-1 result list, and the stage-2
result list when stage 2 ran. -/
structure PipelineReport where
  video_results : List VideoResult
  sound_results : Option (List SoundResult)
deriving DecidableEq, Inhabited

/-- The CLI pipeline coordinator (`example_usage.main`, lines 164-237):
stage 1 over all images; filter to successes; if none, report and return
without any stage-2 work; otherwise, unless sound is skipped, run stage 2
over exactly the successful results. `order1` and `order2` are the
completion orders of the two worker pools. -/
def run_cli_pipeline (gen : String → String → String → Except String String)
    (sg : String → String → String → Except String (List String))
    (images : List String) (output_dir : String) (prompts : List String)
    (skip_sound : Bool) (order1 order2 : List Nat) : PipelineReport :=
  let video_results := run_phase1 gen images output_dir
    (image_prompts prompts images.length) order1
  let successful_videos := video_results.filter (fun r => r.success)
  if successful_videos.isEmpty then
    { video_results := video_results, sound_results := none }
  else if skip_sound then
    { video_results := video_results, sound_results := none }
  else
    { video_results := video_results
      sound_results := some (run_phase2 sg successful_videos output_dir order2) }

/-- The HTTP pipeline coordinator (`server.generate_videos`, lines 367-408):
stage 1 over all uploaded files; stage 2 runs only when sound was requested
and the success set is non-empty. -/
def run_server_pipeline (gen : String → String → String → Except String String)
    (sg : String → String → String → Except String (List String))
    (files : List String) (output_dir : String) (prompts : List String)
    (add_sound : Bool) (order1 order2 : List Nat) : PipelineReport :=
  let video_results := run_phase1 gen files output_dir
    (image_prompts prompts files.length) order1
  let successful_videos := video_results.filter (fun r => r.success)
  if add_sound && !successful_videos.isEmpty then
    { video_results := video_results
      sound_results := some (run_phase2 sg successful_videos output_dir order2) }
  else
    { video_results := video_results, sound_results := none }

/-! ### Worker pool sizes (`ThreadPoolExecutor(max_workers=...)`) -/

/-- CLI stage-1 pool size (example_usage.py line 169): the requested worker
count, unclamped. -/
def cli_stage1_max_workers (max_workers : Nat) (_numImages : Nat) : Nat :=
  max_workers

/-- CLI stage-2 pool size (example_usage.py line 209): the requested worker
count clamped to the number of successful videos. -/
def cli_stage2_max_workers (max_workers : Nat) (numSuccess : Nat) : Nat :=
  min max_workers numSuccess

/-- Server stage-1 pool size (server.py line 369): 3 clamped to the file count. -/
def server_stage1_max_workers (numFiles : Nat) : Nat :=
  min 3 numFiles

/-- Server stage-2 pool size (server.py line 394): 3 clamped to the success count. -/
def server_stage2_max_workers (numSuccess : Nat) : Nat :=
  min 3 numSuccess

/-- An execution of a thread pool with `maxWorkers` workers over `numTasks`
submitted tasks: at any instant some subset of the tasks is in flight, and
the pool never runs more tasks than it has workers. -/
structure PoolExecution (maxWorkers numTasks : Nat) where
  running : Nat → Finset (Fin numTasks)
  bounded : ∀ t, (running t).card ≤ maxWorkers

/-- The idle pool execution, used as a concrete witness instance. -/
def empty_pool_execution (w n : Nat) : PoolExecution w n :=
  ⟨fun _ => ∅, fun _ => by simp⟩

/-! ### CLI input validation and exit behaviour (`example_usage.main`) -/

/-- A command-line image argument together with whether the path exists on
disk (the os.path.exists observation). -/
structure CliImage where
  path : String
  on_disk : Bool
deriving DecidableEq, Inhabited

/-- The png check of the CLI validation: lowercase the path and test the
png-extension suffix, expressed over the character list of the path. -/
def path_is_png (p : String) : Bool :=
  (".png".data).isSuffixOf (p.data.map Char.toLower)

/-- Input validation (example_usage.py lines 140-148): keep arguments that
exist on disk and whose lowercased path ends in the png extension. -/
def valid_images (imgs : List CliImage) : List String :=
  (imgs.filter (fun i => i.on_disk && path_is_png i.path)).map (fun i => i.path)

/-- Process exit code of the CLI tool. When no valid image is found, `main`
prints an error and returns normally (example_usage.py lines 150-152), and
a plain return from main exits the process with code 0; every other path
through `main` also returns normally, so the exit code is 0 throughout. -/
def cli_exit_code (imgs : List CliImage) : Nat :=
  if (valid_images imgs).isEmpty then 0
  else 0

/-- A poll response carrying an error envelope with a non-taskNotFound code. -/
def rateLimitedResponse : PollResponse :=
  { status := 200, data := [], errors := [{ code := some "rateLimited", message := "slow down" }] }

/-- The error envelope of `rateLimitedResponse`. -/
def rateLimitedErr : PollErr :=
  { code := some "rateLimited", message := "slow down" }

/-- A transport-level poll failure: HTTP 500 with an unparsed body. -/
def http500Response : PollResponse :=
  { status := 500, data := [], errors := [] }

/-- A transport-level poll failure: HTTP 502 with an unparsed body. -/
def http502Response : PollResponse :=
  { status := 502, data := [], errors := [] }

/-- The stage-2 success record of a one-item witness batch. -/
def exampleSoundSuccess : SoundResult :=
  { index := 0, video_path := video_output_path "./out" 0
    sound_video_paths := some ["s"], success := true, error := none }

/-- A successful poll payload used as a concrete generation result. -/
def examplePollData : PollData :=
  { status := some "success", message := none, videoURL := some "https://vm.runware.ai/v.mp4" }

/-- The failure record an item receives when the Runware API key is missing:
the ValueError raised inside the worker is caught at the worker boundary. -/
def exampleKeyFailure (i : Nat) (ip : String) : VideoResult :=
  { index := i, image_path := ip, video_path := none, video_url := none
    success := false
    error := some "API key required. Set RUNWARE_API_KEY environment variable or pass api_key parameter" }

-- THEOREMS

/-- Reading every position of a list through getD over its index range
reproduces the list. -/
theorem map_range_getD {α : Type} [Inhabited α] (l : List α) :
    (List.range l.length).map (fun k => l.getD k default) = l := by
  apply List.ext_getElem
  · simp
  · intro i h1 h2
    simp [List.getD_eq_getElem?_getD, List.getElem?_eq_getElem h2]

/-- Collecting a tagged list along a completion order that is a permutation
of its index range yields a permutation of the tagged list. -/
theorem collect_results_perm {α : Type} [Inhabited α] (tagged : List α) (order : List Nat)
    (h : order.Perm (List.range tagged.length)) :
    (collect_results tagged order).Perm tagged := by
  have h2 := h.map (fun k => tagged.getD k default)
  rw [map_range_getD] at h2
  exact h2

/-- Sorting a completion-order collection by a key that is strictly
increasing along the tagged list restores the tagged list exactly. -/
theorem sort_collect_eq {α : Type} [Inhabited α] (key : α → Nat) (tagged : List α)
    (order : List Nat) (h : order.Perm (List.range tagged.length))
    (hkeys : tagged.Pairwise (key_lt key)) :
    sort_by_key key (collect_results tagged order) = tagged := by
  have hperm : (sort_by_key key (collect_results tagged order)).Perm tagged :=
    (List.perm_insertionSort _ _).trans (collect_results_perm tagged order h)
  have hsortedle : List.Sorted (key_le key) (sort_by_key key (collect_results tagged order)) :=
    List.sorted_insertionSort _ _
  have htagne : tagged.Pairwise (fun a b => key a ≠ key b) :=
    hkeys.imp (fun hab => Nat.ne_of_lt hab)
  have hne : (sort_by_key key (collect_results tagged order)).Pairwise
      (fun a b => key a ≠ key b) :=
    (hperm.pairwise_iff (fun hab => Ne.symm hab)).mpr htagne
  have hsortedlt : List.Sorted (key_lt key) (sort_by_key key (collect_results tagged order)) :=
    (hsortedle.and hne).imp (fun hab => Nat.lt_of_le_of_ne hab.1 hab.2)
  exact List.eq_of_perm_of_sorted hperm hsortedlt hkeys

/-- The stage-1 worker always tags its result with its own index. -/
theorem generate_video_for_image_index
    (gen : String → String → String → Except String String)
    (ip : String) (i : Nat) (od : String) (cp : Option String) :
    (generate_video_for_image gen ip i od cp).index = i := by
  cases h : gen ip (video_output_path od i) (positive_prompt_for cp) <;>
    simp [generate_video_for_image, h]

/-- Stage 1 produces one tagged result per input. -/
theorem phase1_tagged_length (gen : String → String → String → Except String String)
    (images : List String) (od : String) (prompts : List (Option String)) :
    (phase1_tagged gen images od prompts).length = images.length := by
  simp [phase1_tagged]

/-- The tagged stage-1 result at position k is the worker applied to input k. -/
theorem phase1_tagged_get (gen : String → String → String → Except String String)
    (images : List String) (od : String) (prompts : List (Option String))
    (k : Nat) (hk : k < images.length) :
    (phase1_tagged gen images od prompts).get
        ⟨k, by rw [phase1_tagged_length]; exact hk⟩ =
      generate_video_for_image gen (images.get ⟨k, hk⟩) k od (prompts.getD k none) := by
  simp [phase1_tagged, List.enum]

/-- Each tagged stage-1 result carries its own position as index. -/
theorem phase1_tagged_index (gen : String → String → String → Except String String)
    (images : List String) (od : String) (prompts : List (Option String))
    (k : Nat) (hk : k < (phase1_tagged gen images od prompts).length) :
    ((phase1_tagged gen images od prompts).get ⟨k, hk⟩).index = k := by
  simp [phase1_tagged, List.enum, generate_video_for_image_index]

/-- The tagged stage-1 list has strictly increasing indices. -/
theorem phase1_tagged_pairwise (gen : String → String → String → Except String String)
    (images : List String) (od : String) (prompts : List (Option String)) :
    (phase1_tagged gen images od prompts).Pairwise (key_lt VideoResult.index) := by
  rw [List.pairwise_iff_getElem]
  intro i j hi hj hij
  have h1 := phase1_tagged_index gen images od prompts i hi
  have h2 := phase1_tagged_index gen images od prompts j hj
  simp only [List.get_eq_getElem] at h1 h2
  simp only [key_lt, h1, h2]
  exact hij

/-- The stage-1 orchestrator restores submission order: sorting the
completion-order collection by index gives the tagged in-order list. -/
theorem run_phase1_eq_tagged (gen : String → String → String → Except String String)
    (images : List String) (od : String) (prompts : List (Option String))
    (order : List Nat) (h : order.Perm (List.range images.length)) :
    run_phase1 gen images od prompts order = phase1_tagged gen images od prompts := by
  unfold run_phase1
  apply sort_collect_eq
  · rw [phase1_tagged_length]; exact h
  · exact phase1_tagged_pairwise gen images od prompts

/-- The stage-2 worker always tags its result with the index of the video
result it processes. -/
theorem generate_sound_for_video_result_index
    (sg : String → String → String → Except String (List String))
    (vr : VideoResult) (od : String) :
    (generate_sound_for_video_result sg vr od).index = vr.index := by
  cases h : sg (vr.video_path.getD "") od (sound_output_tag vr.index) <;>
    simp [generate_sound_for_video_result, h]

/-- Stage 2 produces one tagged result per video result. -/
theorem phase2_tagged_length (sg : String → String → String → Except String (List String))
    (videos : List VideoResult) (od : String) :
    (phase2_tagged sg videos od).length = videos.length := by
  simp [phase2_tagged]

/-- Strictly increasing indices survive the stage-2 worker map. -/
theorem phase2_tagged_pairwise (sg : String → String → String → Except String (List String))
    (videos : List VideoResult) (od : String)
    (h : videos.Pairwise (key_lt VideoResult.index)) :
    (phase2_tagged sg videos od).Pairwise (key_lt SoundResult.index) := by
  unfold phase2_tagged
  refine List.Pairwise.map _ (fun a b hab => ?_) h
  show (generate_sound_for_video_result sg a od).index <
    (generate_sound_for_video_result sg b od).index
  rw [generate_sound_for_video_result_index, generate_sound_for_video_result_index]
  exact hab

/-- The stage-2 orchestrator restores submission order over its input list. -/
theorem run_phase2_eq_tagged (sg : String → String → String → Except String (List String))
    (videos : List VideoResult) (od : String) (order : List Nat)
    (h : order.Perm (List.range videos.length))
    (hp : videos.Pairwise (key_lt VideoResult.index)) :
    run_phase2 sg videos od order = phase2_tagged sg videos od := by
  unfold run_phase2
  apply sort_collect_eq
  · rw [phase2_tagged_length]; exact h
  · exact phase2_tagged_pairwise sg videos od hp

/-- C1: For every batch of N input items, the Stage Orchestrator returns
exactly N results, one per input item tagged with that item's original
index, and the returned list is sorted by original index regardless of the
order in which concurrent workers complete (modelled by an arbitrary
permutation of the index range as completion order). -/
theorem claim_C1_orchestrator_complete_ordered
    (gen : String → String → String → Except String String)
    (images : List String) (od : String) (prompts : List (Option String))
    (order : List Nat) (h : order.Perm (List.range images.length)) :
    run_phase1 gen images od prompts order = phase1_tagged gen images od prompts
    ∧ (run_phase1 gen images od prompts order).length = images.length
    ∧ ∀ k, k < images.length →
        (((run_phase1 gen images od prompts order).getD k default).index) = k := by
  have heq := run_phase1_eq_tagged gen images od prompts order h
  refine ⟨heq, by rw [heq, phase1_tagged_length], ?_⟩
  intro k hk
  rw [heq]
  have hk2 : k < (phase1_tagged gen images od prompts).length := by
    rw [phase1_tagged_length]; exact hk
  have hidx := phase1_tagged_index gen images od prompts k hk2
  simp only [List.get_eq_getElem] at hidx
  rw [List.getD_eq_getElem?_getD, List.getElem?_eq_getElem hk2]
  simpa using hidx

/-- C1 witness: a two-item batch collected in reversed completion order. -/
theorem claim_C1_witness :
    ([1, 0] : List Nat).Perm (List.range 2)
    ∧ run_phase1 (fun _ _ _ => Except.ok "u") ["a.png", "b.png"] "./out" [] [1, 0]
      = phase1_tagged (fun _ _ _ => Except.ok "u") ["a.png", "b.png"] "./out" [] :=
  ⟨by decide,
    (claim_C1_orchestrator_complete_ordered (fun _ _ _ => Except.ok "u")
      ["a.png", "b.png"] "./out" [] [1, 0] (by decide)).1⟩

/-- C2: Every exception raised during an item's worker invocation is caught
at the worker boundary and converted into a failure-variant result carrying
the item's index and the exception message; the worker is a total function
(the exception never escapes), and the result of item j in a batch depends
only on the generation outcome for item j, never on sibling items. -/
theorem claim_C2_worker_boundary_isolation :
    (∀ (gen : String → String → String → Except String String) ip i od cp,
      (generate_video_for_image gen ip i od cp).index = i)
    ∧ (∀ (gen : String → String → String → Except String String) ip i od cp e,
        gen ip (video_output_path od i) (positive_prompt_for cp) = Except.error e →
        generate_video_for_image gen ip i od cp =
          { index := i, image_path := ip, video_path := none, video_url := none
            success := false, error := some e })
    ∧ (∀ (sg : String → String → String → Except String (List String)) vr od e,
        sg (vr.video_path.getD "") od (sound_output_tag vr.index) = Except.error e →
        generate_sound_for_video_result sg vr od =
          { index := vr.index, video_path := vr.video_path.getD ""
            sound_video_paths := none, success := false, error := some e })
    ∧ (∀ (gen gen2 : String → String → String → Except String String)
        (images : List String) od prompts order order2 j (hj : j < images.length),
        order.Perm (List.range images.length) →
        order2.Perm (List.range images.length) →
        gen (images.get ⟨j, hj⟩) (video_output_path od j)
            (positive_prompt_for (prompts.getD j none))
          = gen2 (images.get ⟨j, hj⟩) (video_output_path od j)
            (positive_prompt_for (prompts.getD j none)) →
        (run_phase1 gen images od prompts order)[j]?
          = (run_phase1 gen2 images od prompts order2)[j]?) := by
  refine ⟨fun gen ip i od cp => generate_video_for_image_index gen ip i od cp,
    fun gen ip i od cp e he => by simp [generate_video_for_image, he],
    fun sg vr od e he => by simp [generate_sound_for_video_result, he],
    fun gen gen2 images od prompts order order2 j hj h1 h2 hsame => ?_⟩
  rw [run_phase1_eq_tagged gen images od prompts order h1,
    run_phase1_eq_tagged gen2 images od prompts order2 h2]
  have hj1 : j < (phase1_tagged gen images od prompts).length := by
    rwa [phase1_tagged_length]
  have hj2 : j < (phase1_tagged gen2 images od prompts).length := by
    rwa [phase1_tagged_length]
  rw [List.getElem?_eq_getElem hj1, List.getElem?_eq_getElem hj2]
  have hg1 := phase1_tagged_get gen images od prompts j hj
  have hg2 := phase1_tagged_get gen2 images od prompts j hj
  simp only [List.get_eq_getElem] at hg1 hg2
  rw [hg1, hg2]
  unfold generate_video_for_image
  simp only [List.get_eq_getElem] at hsame
  simp only [hsame]

/-- C2 witness: a failing generation call produces the failure-variant
record, and results are isolated across differing sibling outcomes. -/
theorem claim_C2_witness :
    (fun (ip : String) (_ _ : String) => if ip = "a.png" then Except.error "boom"
      else (Except.ok "u" : Except String String)) "a.png" (video_output_path "./out" 0)
      (positive_prompt_for none) = (Except.error "boom" : Except String String)
    ∧ generate_video_for_image
        (fun ip _ _ => if ip = "a.png" then Except.error "boom" else Except.ok "u")
        "a.png" 0 "./out" none =
        { index := 0, image_path := "a.png", video_path := none, video_url := none
          success := false, error := some "boom" } := by
  refine ⟨by rfl, ?_⟩
  exact claim_C2_worker_boundary_isolation.2.1
    (fun ip _ _ => if ip = "a.png" then Except.error "boom" else Except.ok "u")
    "a.png" 0 "./out" none "boom" (by rfl)

/-- C3: In the poll loop, a remote error envelope whose code is taskNotFound
is transient (polling continues); an envelope with any other code is
terminal and raises immediately, with no further polling; a success status
returns the result payload. -/
theorem claim_C3_poll_error_classification :
    (∀ (r : PollResponse) (d : PollData) (l : List PollData),
      r.status = 200 → r.data = d :: l → d.status = some "success" →
      poll_step r = PollStep.ret d)
    ∧ (∀ (r : PollResponse) (e : PollErr) (l : List PollErr),
        r.status = 200 → r.data = [] → r.errors = e :: l →
        e.code = some "taskNotFound" → poll_step r = PollStep.wait 10)
    ∧ (∀ (r : PollResponse) (e : PollErr) (l : List PollErr),
        r.status = 200 → r.data = [] → r.errors = e :: l →
        e.code ≠ some "taskNotFound" →
        poll_step r = PollStep.raiseErr ("Polling error: " ++ e.message))
    ∧ (∀ (t elapsed : Nat) (r : PollResponse) (rest : List (Nat × PollResponse)) (m : String),
        elapsed < t → poll_step r = PollStep.raiseErr m →
        poll_result t ((elapsed, r) :: rest) = some (PollOutcome.failure m))
    ∧ (∀ (t elapsed : Nat) (r : PollResponse) (rest : List (Nat × PollResponse)) (d : PollData),
        elapsed < t → poll_step r = PollStep.ret d →
        poll_result t ((elapsed, r) :: rest) = some (PollOutcome.success d)) := by
  refine ⟨?_, ?_, ?_, ?_, ?_⟩
  · intro r d l h200 hdata hst
    simp [poll_step, h200, hdata, hst]
  · intro r e l h200 hdata herr hcode
    simp [poll_step, poll_step_errors, h200, hdata, herr, hcode]
  · intro r e l h200 hdata herr hcode
    simp [poll_step, poll_step_errors, h200, hdata, herr, hcode]
  · intro t elapsed r rest m hl hs
    simp [poll_result, hl, hs]
  · intro t elapsed r rest d hl hs
    simp [poll_result, hl, hs]

/-- C3 witness: a taskNotFound envelope continues polling; a different code
raises immediately regardless of the rest of the trace; a success status
returns its payload. -/
theorem claim_C3_witness :
    poll_step taskNotFoundResponse = PollStep.wait 10
    ∧ poll_step rateLimitedResponse = PollStep.raiseErr "Polling error: slow down"
    ∧ poll_result 300 [(0, rateLimitedResponse), (10, successResponse)]
      = some (PollOutcome.failure "Polling error: slow down") := by
  refine ⟨?_, ?_, ?_⟩
  · exact claim_C3_poll_error_classification.2.1 taskNotFoundResponse
      { code := some "taskNotFound", message := "Task not found" } [] rfl rfl rfl rfl
  · exact claim_C3_poll_error_classification.2.2.1 rateLimitedResponse
      rateLimitedErr [] rfl rfl rfl (by decide)
  · exact claim_C3_poll_error_classification.2.2.2.1 300 0 rateLimitedResponse
      [(10, successResponse)] "Polling error: slow down" (by decide)
      (claim_C3_poll_error_classification.2.2.1 rateLimitedResponse
        rateLimitedErr [] rfl rfl rfl (by decide))

/-- C4: When the poll loop ends in the timeout failure, the loop guard
observed an elapsed time that reached or exceeded the bound at the raising
iteration while every earlier iteration observed an elapsed time below the
bound, and every poll request is issued only while the elapsed time is
below the bound. -/
theorem claim_C4_timeout_exact (t : Nat) (trace : List (Nat × PollResponse))
    (h : poll_result t trace = some PollOutcome.timedOut) :
    (∃ k, k < trace.length ∧ t ≤ (trace.getD k (0, default)).1
      ∧ ∀ j, j < k → (trace.getD j (0, default)).1 < t)
    ∧ ∀ j, j < polls_issued t trace → (trace.getD j (0, default)).1 < t := by
  induction trace with
  | nil => simp [poll_result] at h
  | cons p rest ih =>
    obtain ⟨elapsed, r⟩ := p
    by_cases hl : elapsed < t
    · have hstep : ∃ s, poll_step r = PollStep.wait s := by
        rcases hs : poll_step r with d | m | s
        · rw [poll_result, if_pos hl, hs] at h; simp at h
        · rw [poll_result, if_pos hl, hs] at h; simp at h
        · exact ⟨s, rfl⟩
      obtain ⟨s, hs⟩ := hstep
      have hrest : poll_result t rest = some PollOutcome.timedOut := by
        rw [poll_result, if_pos hl, hs] at h; exact h
      obtain ⟨⟨k, hk, hke, hprev⟩, hpolls⟩ := ih hrest
      constructor
      · refine ⟨k + 1, by simpa using hk, by simpa using hke, ?_⟩
        intro j hj
        cases j with
        | zero => simpa using hl
        | succ j2 =>
          have := hprev j2 (Nat.lt_of_succ_lt_succ hj)
          simpa using this
      · intro j hj
        rw [polls_issued, if_pos hl, hs] at hj
        cases j with
        | zero => simpa using hl
        | succ j2 =>
          have := hpolls j2 (Nat.lt_of_succ_lt_succ hj)
          simpa using this
    · constructor
      · exact ⟨0, by simp, by simpa using Nat.le_of_not_lt hl, by intro j hj; omega⟩
      · intro j hj
        rw [polls_issued, if_neg hl] at hj
        omega

/-- C4 witness: with a bound of 20 seconds and a remote that always answers
taskNotFound, polls happen at elapsed 0 and 12 and the loop times out at
the elapsed-25 guard check. -/
theorem claim_C4_witness :
    poll_result 20 [(0, taskNotFoundResponse), (12, taskNotFoundResponse),
        (25, taskNotFoundResponse)] = some PollOutcome.timedOut
    ∧ ((∃ k, k < 3 ∧ 20 ≤ ([(0, taskNotFoundResponse), (12, taskNotFoundResponse),
          (25, taskNotFoundResponse)].getD k (0, default)).1
        ∧ ∀ j, j < k → ([(0, taskNotFoundResponse), (12, taskNotFoundResponse),
            (25, taskNotFoundResponse)].getD j (0, default)).1 < 20)
      ∧ ∀ j, j < polls_issued 20 [(0, taskNotFoundResponse), (12, taskNotFoundResponse),
          (25, taskNotFoundResponse)] →
          ([(0, taskNotFoundResponse), (12, taskNotFoundResponse),
            (25, taskNotFoundResponse)].getD j (0, default)).1 < 20) :=
  ⟨by decide,
    claim_C4_timeout_exact 20 [(0, taskNotFoundResponse), (12, taskNotFoundResponse),
      (25, taskNotFoundResponse)] (by decide)⟩

/-- C10: A non-200 HTTP status on a status-check request is transient — the
loop waits 5 seconds and continues — and a trace consisting solely of
non-200 responses can only leave the loop through the timeout bound, never
through a success or a terminal error. -/
theorem claim_C10_non200_poll_transient :
    (∀ r : PollResponse, r.status ≠ 200 → poll_step r = PollStep.wait 5)
    ∧ ∀ (t : Nat) (trace : List (Nat × PollResponse)),
        (∀ p ∈ trace, p.2.status ≠ 200) →
        poll_result t trace = none ∨ poll_result t trace = some PollOutcome.timedOut := by
  have hstep : ∀ r : PollResponse, r.status ≠ 200 → poll_step r = PollStep.wait 5 := by
    intro r hr
    simp [poll_step, hr]
  refine ⟨hstep, ?_⟩
  intro t trace hall
  induction trace with
  | nil => left; rfl
  | cons p rest ih =>
    obtain ⟨elapsed, r⟩ := p
    by_cases hl : elapsed < t
    · have hr : r.status ≠ 200 := hall (elapsed, r) (by simp)
      rw [poll_result, if_pos hl, hstep r hr]
      exact ih (fun q hq => hall q (by simp [hq]))
    · right
      rw [poll_result, if_neg hl]

/-- C10 witness: two non-200 responses inside the bound leave the loop
undecided on the finite trace; with a final guard check past the bound the
loop times out. -/
theorem claim_C10_witness :
    ((∀ p ∈ [((0 : Nat), http500Response), (6, http502Response)], p.2.status ≠ 200)
      ∧ (poll_result 20 [(0, http500Response), (6, http502Response)] = none
        ∨ poll_result 20 [(0, http500Response), (6, http502Response)]
          = some PollOutcome.timedOut))
    ∧ poll_step http500Response = PollStep.wait 5 :=
  ⟨⟨by decide,
    claim_C10_non200_poll_transient.2 20
      [(0, http500Response), (6, http502Response)] (by decide)⟩,
    claim_C10_non200_poll_transient.1 http500Response (by decide)⟩

/-- C5: Stage 2 is never invoked when stage 1 yields zero successes — both
the CLI and the server coordinator terminate without any stage-2 work when
the filtered success set is empty — and when stage 2 does run, it runs over
exactly the filtered successful stage-1 results, one job per success. -/
theorem claim_C5_stage2_gating :
    (∀ gen sg (images : List String) od prompts skip order1 order2,
      (run_phase1 gen images od (image_prompts prompts images.length) order1).filter
          (fun r => r.success) = [] →
      (run_cli_pipeline gen sg images od prompts skip order1 order2).sound_results = none)
    ∧ (∀ gen sg (files : List String) od prompts addsound order1 order2,
        (run_phase1 gen files od (image_prompts prompts files.length) order1).filter
            (fun r => r.success) = [] →
        (run_server_pipeline gen sg files od prompts addsound order1 order2).sound_results
          = none)
    ∧ (∀ gen sg (images : List String) od prompts order1 order2 rs,
        order1.Perm (List.range images.length) →
        order2.Perm (List.range
          ((run_phase1 gen images od (image_prompts prompts images.length) order1).filter
            (fun r => r.success)).length) →
        (run_cli_pipeline gen sg images od prompts false order1 order2).sound_results
          = some rs →
        rs = phase2_tagged sg
          ((run_phase1 gen images od (image_prompts prompts images.length) order1).filter
            (fun r => r.success)) od) := by
  refine ⟨?_, ?_, ?_⟩
  · intro gen sg images od prompts skip order1 order2 h
    simp [run_cli_pipeline, h]
  · intro gen sg files od prompts addsound order1 order2 h
    simp [run_server_pipeline, h]
  · intro gen sg images od prompts order1 order2 rs h1 h2 hsome
    by_cases hS : (run_phase1 gen images od (image_prompts prompts images.length)
        order1).filter (fun r => r.success) = []
    · simp [run_cli_pipeline, hS] at hsome
    · have hrun : (run_cli_pipeline gen sg images od prompts false order1 order2).sound_results
          = some (run_phase2 sg
            ((run_phase1 gen images od (image_prompts prompts images.length) order1).filter
              (fun r => r.success)) od order2) := by
        simp [run_cli_pipeline, hS]
      rw [hrun] at hsome
      have hpair : ((run_phase1 gen images od (image_prompts prompts images.length)
          order1).filter (fun r => r.success)).Pairwise (key_lt VideoResult.index) := by
        rw [run_phase1_eq_tagged gen images od (image_prompts prompts images.length)
          order1 h1]
        exact List.Pairwise.sublist (List.filter_sublist _)
          (phase1_tagged_pairwise gen images od (image_prompts prompts images.length))
      have := run_phase2_eq_tagged sg
        ((run_phase1 gen images od (image_prompts prompts images.length) order1).filter
          (fun r => r.success)) od order2 h2 hpair
      rw [this] at hsome
      exact (Option.some_inj.mp hsome).symm

/-- C5 witness: an all-failing stage 1 produces no stage-2 work, and a
single-success batch runs stage 2 over exactly that success. -/
theorem claim_C5_witness :
    (run_phase1 (fun _ _ _ => Except.error "boom") ["a.png"] "./out"
        (image_prompts [] 1) [0]).filter (fun r => r.success) = []
    ∧ (run_cli_pipeline (fun _ _ _ => Except.error "boom") (fun _ _ _ => Except.ok ["s"])
        ["a.png"] "./out" [] false [0] [0]).sound_results = none
    ∧ (run_cli_pipeline (fun _ _ _ => Except.ok "u") (fun _ _ _ => Except.ok ["s"])
          ["a.png"] "./out" [] false [0] [0]).sound_results
        = some [exampleSoundSuccess]
    ∧ [exampleSoundSuccess]
      = phase2_tagged (fun _ _ _ => Except.ok ["s"])
          ((run_phase1 (fun _ _ _ => Except.ok "u") ["a.png"] "./out"
            (image_prompts [] 1) [0]).filter (fun r => r.success)) "./out" := by
  refine ⟨by decide, ?_, by decide, ?_⟩
  · exact claim_C5_stage2_gating.1 (fun _ _ _ => Except.error "boom")
      (fun _ _ _ => Except.ok ["s"]) ["a.png"] "./out" [] false [0] [0] (by decide)
  · exact claim_C5_stage2_gating.2.2 (fun _ _ _ => Except.ok "u")
      (fun _ _ _ => Except.ok ["s"]) ["a.png"] "./out" [] [0] [0]
      [exampleSoundSuccess] (by decide) (by decide) (by decide)

/-- C6 counterexample: the CLI stage-1 pool is created with the requested
worker count unclamped — for 5 requested workers and 2 items the pool size
is 5, not min 5 2. -/
theorem claim_C6_counterexample : cli_stage1_max_workers 5 2 ≠ min 5 2 := by decide

/-- C6 amended: the in-flight worker count of every stage is bounded by
min(requestedWorkers, itemCount). The pool size is the clamp itself for the
CLI stage-2 pool and both server pools; the CLI stage-1 pool is created with
the unclamped requested count, but an execution of that pool still never
runs more than min(requestedWorkers, itemCount) tasks at once, because it
has at most itemCount tasks. -/
theorem claim_C6_concurrency_bound :
    (∀ (w n : Nat) (E : PoolExecution (cli_stage1_max_workers w n) n) (t : Nat),
      (E.running t).card ≤ min w n)
    ∧ (∀ w n, cli_stage2_max_workers w n = min w n)
    ∧ (∀ n, server_stage1_max_workers n = min 3 n)
    ∧ (∀ n, server_stage2_max_workers n = min 3 n)
    ∧ (∀ (w n : Nat) (E : PoolExecution (cli_stage2_max_workers w n) n) (t : Nat),
      (E.running t).card ≤ min w n)
    ∧ (∀ (n : Nat) (E : PoolExecution (server_stage1_max_workers n) n) (t : Nat),
      (E.running t).card ≤ min 3 n)
    ∧ (∀ (n : Nat) (E : PoolExecution (server_stage2_max_workers n) n) (t : Nat),
      (E.running t).card ≤ min 3 n) := by
  have hcard : ∀ (n : Nat) (s : Finset (Fin n)), s.card ≤ n := by
    intro n s
    simpa using Finset.card_le_univ s
  refine ⟨?_, fun w n => rfl, fun n => rfl, fun n => rfl, ?_, ?_, ?_⟩
  · intro w n E t
    exact le_min (E.bounded t) (hcard n (E.running t))
  · intro w n E t
    exact E.bounded t
  · intro n E t
    exact E.bounded t
  · intro n E t
    exact E.bounded t

/-- C6 witness: concrete pool executions at requested count 5 over 2 items. -/
theorem claim_C6_witness :
    ((empty_pool_execution (cli_stage1_max_workers 5 2) 2).running 0).card ≤ min 5 2
    ∧ cli_stage2_max_workers 5 2 = min 5 2
    ∧ server_stage1_max_workers 2 = min 3 2 :=
  ⟨claim_C6_concurrency_bound.1 5 2 (empty_pool_execution (cli_stage1_max_workers 5 2) 2) 0,
    claim_C6_concurrency_bound.2.1 5 2,
    claim_C6_concurrency_bound.2.2.1 2⟩

/-- C7 counterexample: the inline download of `generate_video_from_image`
receives HTTP 404 — a non-2xx status — yet the call completes as a success
(the result is returned without a local path and no error is raised). -/
theorem claim_C7_counterexample :
    generate_video_from_image (some "key") none (Except.ok "uuid")
        (PollOutcome.success examplePollData) (some "out/video_01.mp4") 404
      = Except.ok (examplePollData, none) := by rfl

/-- Length of the collected download list counts exactly the 200 statuses. -/
theorem download_results_go_length (idx : Nat) (statuses : List Nat)
    (dir tag : String) :
    (download_results_go idx statuses dir tag).length
      = (statuses.filter (fun s => s = 200)).length := by
  induction statuses generalizing idx with
  | nil => rfl
  | cons s rest ih =>
    by_cases h : s = 200
    · simp [download_results_go, List.filter_cons, h, ih]
    · simp [download_results_go, List.filter_cons, h, ih]

/-- C7 amended: the artifact fetcher `download_video` fails on every 4xx or
5xx HTTP status and on every transport-level failure, and issues no retry
(it is a function of the single response); but the inline download of
`generate_video_from_image` treats a non-200 status as a logged skip (the
result is returned without a local path, no failure), and `_download_results`
skips non-200 downloads, returning exactly the 200-status paths. -/
theorem claim_C7_fetcher_amended :
    (∀ (r : DownloadResp) (out : String), 400 ≤ r.status → r.status < 600 →
      download_video (Except.ok r) out
        = Except.error ("Failed to download video: " ++ http_error_message r.status))
    ∧ (∀ (e : String) (out : String),
        download_video (Except.error e) out
          = Except.error ("Failed to download video: " ++ e))
    ∧ (∀ (r : DownloadResp) (out : String), r.status < 400 →
        download_video (Except.ok r) out = Except.ok (out, r.body))
    ∧ (∀ (d : PollData) (p : String) (s : Nat), s ≠ 200 →
        download_video_step d (some p) s = (d, none))
    ∧ (∀ (statuses : List Nat) (dir tag : String),
        (download_results statuses dir tag).length
          = (statuses.filter (fun s => s = 200)).length) := by
  refine ⟨?_, fun e out => rfl, ?_, ?_, ?_⟩
  · intro r out h1 h2
    simp [download_video, h1, h2]
  · intro r out h
    have h2 : ¬(400 ≤ r.status ∧ r.status < 600) := by omega
    simp [download_video, h2]
  · intro d p s h
    simp [download_video_step, h]
  · intro statuses dir tag
    exact download_results_go_length 1 statuses dir tag

/-- C7 witness: a 404 download fails, a transport error fails, a 200
download succeeds, the inline download skips a 404 without failing, and a
mixed status list yields only the successful paths. -/
theorem claim_C7_witness :
    download_video (Except.ok { status := 404, content_length := 3, body := [1, 2, 3] }) "v.mp4"
      = Except.error ("Failed to download video: " ++ http_error_message 404)
    ∧ download_video (Except.error "connection reset") "v.mp4"
      = Except.error "Failed to download video: connection reset"
    ∧ download_video (Except.ok { status := 200, content_length := 3, body := [1, 2, 3] }) "v.mp4"
      = Except.ok ("v.mp4", [1, 2, 3])
    ∧ download_video_step examplePollData (some "v.mp4") 404 = (examplePollData, none)
    ∧ (download_results [200, 404, 200] "./out" "result_video").length
      = ([200, 404, 200].filter (fun s => s = 200)).length :=
  ⟨claim_C7_fetcher_amended.1 { status := 404, content_length := 3, body := [1, 2, 3] }
      "v.mp4" (by decide) (by decide),
    claim_C7_fetcher_amended.2.1 "connection reset" "v.mp4",
    claim_C7_fetcher_amended.2.2.1 { status := 200, content_length := 3, body := [1, 2, 3] }
      "v.mp4" (by decide),
    claim_C7_fetcher_amended.2.2.2.1 examplePollData "v.mp4" 404 (by decide),
    claim_C7_fetcher_amended.2.2.2.2 [200, 404, 200] "./out" "result_video"⟩

/-- The stage-1 result list of a CLI pipeline report is the stage-1
orchestrator output, whichever branch the coordinator takes afterwards. -/
theorem run_cli_pipeline_video_results
    (gen : String → String → String → Except String String)
    (sg : String → String → String → Except String (List String))
    (images : List String) (od : String) (prompts : List String)
    (skip_sound : Bool) (order1 order2 : List Nat) :
    (run_cli_pipeline gen sg images od prompts skip_sound order1 order2).video_results
      = run_phase1 gen images od (image_prompts prompts images.length) order1 := by
  simp only [run_cli_pipeline]
  split_ifs <;> rfl

/-- C8 counterexample: with both Runware key sources absent, the CLI
pipeline on two images still invokes the stage-1 worker for each item — the
run completes with a per-item key failure for both items instead of failing
before any worker is spawned. -/
theorem claim_C8_counterexample :
    (run_cli_pipeline
        (gvfi_worker_gen none none (Except.ok "uuid") PollOutcome.timedOut 200)
        (fun _ _ _ => Except.ok []) ["a.png", "b.png"] "./out" [] false [0, 1] []).video_results
      = [exampleKeyFailure 0 "a.png", exampleKeyFailure 1 "b.png"] := by decide

/-- C8 amended: a missing API key raises ValueError at the start of
`generate_video_from_image` or `generate_sound_for_video`, before any
network activity of that invocation (the outcome is the key error whatever
the network outcomes are); but in the batch pipeline the check runs inside
each already-spawned worker and is caught at the worker boundary, so the
batch completes with one key-failure result per item and no stage-2 work,
rather than failing before workers spawn. -/
theorem claim_C8_config_error_amended :
    (∀ (submit : Except String String) (poll : PollOutcome) (out : Option String) (ds : Nat),
      generate_video_from_image none none submit poll out ds
        = Except.error "API key required. Set RUNWARE_API_KEY environment variable or pass api_key parameter")
    ∧ (∀ body, generate_sound_for_video none none body
        = Except.error "API key required. Set MIRELO_API_KEY environment variable or pass api_key parameter")
    ∧ (∀ (submit : Except String String) (poll : PollOutcome) (ds : Nat)
        (sg : String → String → String → Except String (List String))
        (images : List String) (od : String) (prompts : List String)
        (skip : Bool) (order1 order2 : List Nat),
        order1.Perm (List.range images.length) →
        (run_cli_pipeline (gvfi_worker_gen none none submit poll ds) sg images od prompts
            skip order1 order2).video_results.length = images.length
        ∧ (∀ r ∈ (run_cli_pipeline (gvfi_worker_gen none none submit poll ds) sg images od
            prompts skip order1 order2).video_results,
            r.success = false ∧ r.error = some "API key required. Set RUNWARE_API_KEY environment variable or pass api_key parameter")
        ∧ (run_cli_pipeline (gvfi_worker_gen none none submit poll ds) sg images od prompts
            skip order1 order2).sound_results = none) := by
  refine ⟨fun submit poll out ds => rfl, fun body => rfl, ?_⟩
  intro submit poll ds sg images od prompts skip order1 order2 h1
  have hgen : ∀ a b c, gvfi_worker_gen none none submit poll ds a b c
      = Except.error "API key required. Set RUNWARE_API_KEY environment variable or pass api_key parameter" :=
    fun _ _ _ => rfl
  have heq := run_phase1_eq_tagged (gvfi_worker_gen none none submit poll ds) images od
    (image_prompts prompts images.length) order1 h1
  have hmem : ∀ r ∈ phase1_tagged (gvfi_worker_gen none none submit poll ds) images od
      (image_prompts prompts images.length),
      r.success = false ∧ r.error = some "API key required. Set RUNWARE_API_KEY environment variable or pass api_key parameter" := by
    intro r hr
    obtain ⟨p, hp, rfl⟩ := List.mem_map.mp hr
    constructor <;> simp [generate_video_for_image, hgen]
  have hfilt : (run_phase1 (gvfi_worker_gen none none submit poll ds) images od
      (image_prompts prompts images.length) order1).filter (fun r => r.success) = [] := by
    rw [heq]
    rw [List.filter_eq_nil_iff]
    intro r hr
    simp [(hmem r hr).1]
  refine ⟨?_, ?_, ?_⟩
  · rw [run_cli_pipeline_video_results, heq, phase1_tagged_length]
  · intro r hr
    rw [run_cli_pipeline_video_results, heq] at hr
    exact hmem r hr
  · simp [run_cli_pipeline, hfilt]

/-- C8 witness: the amended statement at a concrete two-item batch with a
missing key. -/
theorem claim_C8_witness :
    ([0, 1] : List Nat).Perm (List.range 2)
    ∧ (run_cli_pipeline
        (gvfi_worker_gen none none (Except.ok "uuid") PollOutcome.timedOut 200)
        (fun _ _ _ => Except.ok []) ["a.png", "b.png"] "./out" [] false [0, 1]
        []).video_results.length = (["a.png", "b.png"] : List String).length :=
  ⟨by decide,
    (claim_C8_config_error_amended.2.2 (Except.ok "uuid") PollOutcome.timedOut 200
      (fun _ _ _ => Except.ok []) ["a.png", "b.png"] "./out" [] false [0, 1] []
      (by decide)).1⟩

/-- C9 counterexample: with a single existing non-PNG argument the CLI finds
no valid input, yet its exit code is 0 — not non-zero as claimed. -/
theorem claim_C9_counterexample :
    ¬ (valid_images [{ path := "notes.txt", on_disk := true }] = [] →
        cli_exit_code [{ path := "notes.txt", on_disk := true }] ≠ 0) := by decide

/-- C9 amended: the CLI exits with code 0 on any partial success and also
exits with code 0 on total failure to find valid inputs — `main` prints an
error and returns normally in every case, so the exit code is always 0. -/
theorem claim_C9_exit_code_amended (imgs : List CliImage) : cli_exit_code imgs = 0 := by
  unfold cli_exit_code
  split <;> rfl

end KindergartenAI
